import Mathlib

/-!
Shallow embedding of `src/index.js` (the `ImageWrap` class wrapping an RGBA
pixel buffer) together with theorems settling the specification claims.

Modelling conventions:
* The backing `Uint8ClampedArray` is a `List ℕ` of byte values; writes model
  the clamped-array semantics (values clamped to 255, writes at out-of-range
  indices ignored, which is exactly `List.set`), reads model `data[i]` via
  `List.getD` (the claims under verification only exercise in-range reads).
* JavaScript bitwise operators work on the 32-bit two's-complement
  reinterpretation of a number.  For a natural `c`, `0xFF & (c >> s)` with
  `s ∈ {0, 8, 16, 24}` equals `c % 2^32 / 2^s % 256` (`jsByte`), and the
  possibly sign-flipping `b << 24` used by `get32` is `toInt32 (b * 2^24)`.
* The malformed expressions in the source (`4( ... )`, which applies the
  number literal `4` as a function, and the undeclared identifier `r` read
  by the getter `red`) throw at run time; fallible operations therefore
  return `Except Err`.
* `Math.cos`/`Math.sin` values at the sampled angles
  `θ_k = 2π - k·(2π/tests)` are irrational reals approximated by floats; the
  gradient model abstracts them as a parameter `dir : ℕ → ℚ × ℚ` giving the
  `(dx, dy)` pair of the `k`-th loop iteration, so the gradient theorems
  hold for every instantiation, in particular for the actual float values.
  The loop guard `θ > 0` is modelled exactly: dividing by `2π > 0` it is
  `0 < 1 - k/tests`, a rational condition (`thetaGuard`).
-/

namespace ImageWrapModel

/-- Run-time failures relevant to the claims: `typeError` (applying a
non-function, as in the malformed `4(...)` index expression), `referenceError`
(reading an undeclared identifier, as in the getter `red`), the two
construction failures `'Size information required'` and
`'Unknown Image Source'`, and `externalFailure` for the image/canvas
construction paths, which delegate to DOM collaborators and, as written,
throw inside those collaborators before any state is produced. -/
inductive Err where
  | typeError : Err
  | referenceError : Err
  | sizeRequired : Err
  | unknownSource : Err
  | externalFailure : Err
deriving DecidableEq, Repr

/-- Reinterpretation of a natural number as a signed 32-bit integer, as
performed by JavaScript bitwise operators on their result. -/
def toInt32 (n : ℕ) : ℤ :=
  if n % 4294967296 < 2147483648 then ((n % 4294967296 : ℕ) : ℤ)
  else ((n % 4294967296 : ℕ) : ℤ) - 4294967296

/-- Value of the JavaScript expression `0xFF & (c >> s)` for a natural `c`:
the 32-bit truncation of `c`, arithmetically shifted right by `s`, masked to
the low byte. -/
def jsByte (c s : ℕ) : ℕ := c % 4294967296 / 2 ^ s % 256

/-- Read `data[i]` from the channel array (claims only exercise in-range
reads, where the default is irrelevant). -/
def rd (l : List ℕ) (i : ℕ) : ℕ := l.getD i 0

/-- Write `data[i] = v` on a `Uint8ClampedArray`: the value is clamped to
the byte range and out-of-range writes are ignored (as `List.set` does). -/
def wr (l : List ℕ) (i v : ℕ) : List ℕ := l.set i (min v 255)

/-- Model of the DOM `ImageData` object consumed and produced by the class:
a flat RGBA channel array plus dimensions. -/
structure ImageData where
  data : List ℕ
  width : ℕ
  height : ℕ
deriving DecidableEq, Repr

/-- Model of the DOM constructor `new ImageData(data, width)`: the missing
height is derived by the platform as `data.length / (4 * width)`. -/
def mkImageData1 (d : List ℕ) (w : ℕ) : ImageData := ⟨d, w, d.length / (4 * w)⟩

/-- Model of the DOM constructor `new ImageData(data, width, height)`. -/
def mkImageData2 (d : List ℕ) (w h : ℕ) : ImageData := ⟨d, w, h⟩

/-- Rect descriptor as used by `fromArray`: optional `width` and `height`
fields (`none` models an absent/`undefined` field). -/
structure RectWH where
  width : Option ℕ
  height : Option ℕ
deriving DecidableEq, Repr

/-- JavaScript truthiness of an optional numeric field: `undefined` and `0`
are falsy. -/
def jsTruthy : Option ℕ → Bool
  | none => false
  | some n => n != 0

/-- The source kinds the constructor dispatches on via `instanceof`
(`Image`, `Canvas`, `UInt8ClampedArray`, `ImageData`), plus `other` for a
source matching none of them.  The model assumes the host environment
resolves the constructor-referenced global names. -/
inductive Source where
  | image : Source
  | canvas : Source
  | rawArray : List ℕ → Source
  | pixelData : ImageData → Source
  | other : Source

/-- State of a constructed `ImageWrap`: the fields `_data`, `_width`,
`_height` and `_rect` assigned by `fromData` (`_imageData` holds the same
data/width/height triple and `_source` is only ever set by its own setter;
neither is read by any claimed operation). -/
structure ImageWrap where
  data : List ℕ
  width : ℕ
  height : ℕ
  rect : Option RectWH
deriving DecidableEq, Repr

namespace ImageWrap

/-- Method `fromData(source, rect)`: stores the `ImageData`'s fields. -/
def fromData (src : ImageData) (rect : Option RectWH) : ImageWrap :=
  ⟨src.data, src.width, src.height, rect⟩

/-- Method `fromArray(source, rect)`: throws `'Size information required'`
without a rect or with neither dimension truthy; with a truthy `width` it
builds `ImageData` from the given width (and height, when truthy); with only
a truthy `height` it derives the width as `(source.length/4)/rect.height`.
Note `fromArray` calls `fromData` without a rect argument, so the stored
`_rect` is `none` on this path. -/
def fromArray (src : List ℕ) (rect : Option RectWH) : Except Err ImageWrap :=
  match rect with
  | none => .error .sizeRequired
  | some r =>
    if jsTruthy r.width then
      if jsTruthy r.height then
        .ok (fromData (mkImageData2 src (r.width.getD 0) (r.height.getD 0)) none)
      else
        .ok (fromData (mkImageData1 src (r.width.getD 0)) none)
    else
      if jsTruthy r.height then
        .ok (fromData (mkImageData2 src (src.length / 4 / (r.height.getD 0)) (r.height.getD 0)) none)
      else .error .sizeRequired

/-- The constructor's `instanceof` dispatch.  The image and canvas branches
delegate to DOM collaborators (out of scope per the spec) and, as written,
fail inside them (`fromCanvas` reads an undeclared identifier `canvas`;
`fromImage` calls `drawImage` with missing arguments) before constructing
any state; they are modelled as a distinct `externalFailure`.  A source
matching no branch throws `'Unknown Image Source'`. -/
def construct : Source → Option RectWH → Except Err ImageWrap
  | .image, _ => .error .externalFailure
  | .canvas, _ => .error .externalFailure
  | .rawArray d, rect => fromArray d rect
  | .pixelData d, rect => .ok (fromData d rect)
  | .other, _ => .error .unknownSource

/-- The exposed property setter `set width(v) { this._width = v; }`. -/
def widthSetter (b : ImageWrap) (v : ℕ) : ImageWrap := { b with width := v }

/-- The exposed property setter `set height(v) { this._height = v; }`. -/
def heightSetter (b : ImageWrap) (v : ℕ) : ImageWrap := { b with height := v }

/-- Pixel base index `4 * (y * width + x)` used throughout the class. -/
def idx (b : ImageWrap) (x y : ℕ) : ℕ := 4 * (y * b.width + x)

/-- Method `get(x,y)`: packed RGB24 read
`(data[ind] << 16) + (data[ind+1] << 8) + data[ind+2]` (the shifts cannot
overflow 32 bits for clamped byte values). -/
def get (b : ImageWrap) (x y : ℕ) : ℕ :=
  rd b.data (idx b x y) * 65536 + rd b.data (idx b x y + 1) * 256 + rd b.data (idx b x y + 2)

/-- Method `get32(x,y)`: packed ARGB32 read.  The alpha shift
`data[ind+3] << 24` is a signed 32-bit operation, so the result is negative
for an alpha byte `≥ 0x80`. -/
def get32 (b : ImageWrap) (x y : ℕ) : ℤ :=
  toInt32 (rd b.data (idx b x y + 3) * 16777216) +
    ((rd b.data (idx b x y) * 65536 + rd b.data (idx b x y + 1) * 256 +
      rd b.data (idx b x y + 2) : ℕ) : ℤ)

/-- Method `set(x,y,color)`: writes the three color bytes from an RGB24
value and leaves the alpha byte alone. -/
def set (b : ImageWrap) (x y c : ℕ) : ImageWrap :=
  let d1 := wr b.data (idx b x y) (jsByte c 16)
  let d2 := wr d1 (idx b x y + 1) (jsByte c 8)
  let d3 := wr d2 (idx b x y + 2) (jsByte c 0)
  { b with data := d3 }

/-- Method `set32(x,y,color)`: writes all four bytes from an ARGB32 value,
the alpha byte coming from bits 24–31. -/
def set32 (b : ImageWrap) (x y c : ℕ) : ImageWrap :=
  let d1 := wr b.data (idx b x y) (jsByte c 16)
  let d2 := wr d1 (idx b x y + 1) (jsByte c 8)
  let d3 := wr d2 (idx b x y + 2) (jsByte c 0)
  let d4 := wr d3 (idx b x y + 3) (jsByte c 24)
  { b with data := d4 }

/-- Evaluation of the undeclared identifier `r` inside the getter `red`
(`return this._data[ind] = r;`): a `ReferenceError` is thrown before any
read or write happens. -/
def jsUndeclaredR : Except Err ℕ := .error .referenceError

/-- Getter `red(x,y)` as written in the source: it evaluates the undeclared
identifier `r` (a copy-paste slip from `setRed`), so every call throws. -/
def red (b : ImageWrap) (x y : ℕ) : Except Err ℕ := do
  let _ind := idx b x y
  let r ← jsUndeclaredR
  pure r

/-- Getter `green(x,y)`. -/
def green (b : ImageWrap) (x y : ℕ) : ℕ := rd b.data (idx b x y + 1)

/-- Getter `blue(x,y)`. -/
def blue (b : ImageWrap) (x y : ℕ) : ℕ := rd b.data (idx b x y + 2)

/-- Getter `alpha(x,y)`. -/
def alpha (b : ImageWrap) (x y : ℕ) : ℕ := rd b.data (idx b x y + 3)

/-- Setter `setRed(x,y,r)`: raw write, clamped only by the typed array. -/
def setRed (b : ImageWrap) (x y v : ℕ) : ImageWrap :=
  { b with data := wr b.data (idx b x y) v }

/-- Setter `setGreen(x,y,g)`. -/
def setGreen (b : ImageWrap) (x y v : ℕ) : ImageWrap :=
  { b with data := wr b.data (idx b x y + 1) v }

/-- Setter `setBlue(x,y,b)`. -/
def setBlue (b : ImageWrap) (x y v : ℕ) : ImageWrap :=
  { b with data := wr b.data (idx b x y + 2) v }

/-- Setter `setAlpha(x,y,a)`. -/
def setAlpha (b : ImageWrap) (x y v : ℕ) : ImageWrap :=
  { b with data := wr b.data (idx b x y + 3) v }

/-- Evaluation of the malformed index expression `4( y*this._width+x )` in
`absDiff` and `diff`: it applies the number literal `4` as a function, so a
`TypeError` is thrown on every call. -/
def jsCallFour (_arg : ℕ) : Except Err ℕ := .error .typeError

/-- Method `absDiff(x,y,color)` as written in the source: the very first
statement `let ind = 4( y*this._width+x );` throws a `TypeError`. -/
def absDiff (b : ImageWrap) (x y c : ℕ) : Except Err ℤ := do
  let ind ← jsCallFour (y * b.width + x)
  pure (|(rd b.data ind : ℤ) - jsByte c 16| + |(rd b.data (ind + 1) : ℤ) - jsByte c 8| +
    |(rd b.data (ind + 2) : ℤ) - jsByte c 0|)

/-- Method `diff(x,y,color)` as written in the source: like `absDiff`, its
first statement throws a `TypeError`. -/
def diff (b : ImageWrap) (x y c : ℕ) : Except Err ℤ := do
  let ind ← jsCallFour (y * b.width + x)
  pure (((rd b.data ind : ℤ) - jsByte c 16) + ((rd b.data (ind + 1) : ℤ) - jsByte c 8) +
    ((rd b.data (ind + 2) : ℤ) - jsByte c 0))

/-- Modelled from the spec: the intended `absoluteChannelDiff` with the
index formula `4*(y*width+x)` of §4.1 (the source's own expression is
malformed and throws); used to compare the claimed behaviour with what the
code actually computes. -/
def absDiffSpec (b : ImageWrap) (x y c : ℕ) : ℤ :=
  |(rd b.data (idx b x y) : ℤ) - jsByte c 16| + |(rd b.data (idx b x y + 1) : ℤ) - jsByte c 8| +
    |(rd b.data (idx b x y + 2) : ℤ) - jsByte c 0|

end ImageWrap

/-- Loop guard of the angular sampling loops: `θ_k = 2π - k·(2π/tests) > 0`,
divided by `2π > 0`, is the rational condition `0 < 1 - k/tests`. -/
def thetaGuard (tests k : ℕ) : Prop := (0 : ℚ) < 1 - (k : ℚ) / (tests : ℚ)

instance (tests k : ℕ) : Decidable (thetaGuard tests k) := by
  unfold thetaGuard; infer_instance

/-- Fuelled unfolding of the sampling loop
`for (let theta = 2π; theta > 0; theta -= 2π/tests)`: the list of iteration
indices `k` for which the guard `θ_k > 0` holds, in loop order. -/
def ringGo : ℕ → ℕ → ℕ → List ℕ
  | 0, _, _ => []
  | fuel + 1, tests, k => if thetaGuard tests k then k :: ringGo fuel tests (k + 1) else []

/-- Iteration indices of the sampling loops of `minGrad`/`maxGrad`.  The
fuel `tests + 1` is enough for the guard itself to stop the loop: for
`tests ≥ 1` the guard fails exactly at `k = tests` (see the termination
theorem below). -/
def ringKs (tests : ℕ) : List ℕ := ringGo (tests + 1) tests 0

namespace ImageWrap

/-- Reference channels `r, g, b` computed before the sampling loop: from the
center pixel when `color` is `null`, otherwise unpacked from the RGB24
`color`. -/
def refRGB (b : ImageWrap) (x y : ℕ) (color : Option ℕ) : ℕ × ℕ × ℕ :=
  match color with
  | none => (rd b.data (idx b x y), rd b.data (idx b x y + 1), rd b.data (idx b x y + 2))
  | some c => (jsByte c 16, jsByte c 8, jsByte c 0)

/-- Divergence computed inside the sampling loops:
`ind = 4*(y*width + x)` — the index of the CENTER pixel, not of the ring
candidate — followed by the sum of absolute channel differences against the
reference channels. -/
def chanDel (b : ImageWrap) (x y r g c : ℕ) : ℤ :=
  |(r : ℤ) - rd b.data (idx b x y)| + |(g : ℤ) - rd b.data (idx b x y + 1)| +
    |(c : ℤ) - rd b.data (idx b x y + 2)|

/-- Divergence value tracked by a call: `chanDel` at the reference channels
(the loops recompute the same value each iteration, since nothing is
written during a call). -/
def delVal (b : ImageWrap) (x y : ℕ) (color : Option ℕ) : ℤ :=
  chanDel b x y (refRGB b x y color).1 (refRGB b x y color).2.1 (refRGB b x y color).2.2

/-- The bounds test of iteration `k`:
`tx = x + |radius*dx|` and `ty = y + |radius*dy|` must pass the two `continue`
checks `tx < 0 || tx >= width` and `ty < 0 || ty >= height`. -/
def inB (b : ImageWrap) (radius : ℚ) (x y : ℕ) (dir : ℕ → ℚ × ℚ) (k : ℕ) : Bool :=
  !((x : ℚ) + |radius * (dir k).1| < 0 ∨ (x : ℚ) + |radius * (dir k).1| ≥ (b.width : ℚ)) &&
    !((y : ℚ) + |radius * (dir k).2| < 0 ∨ (y : ℚ) + |radius * (dir k).2| ≥ (b.height : ℚ))

/-- Running state of a sampling loop: the extremal divergence seen so far
and the `(dx, dy)` that produced it (`none` models the `var minDx, minDy`
declarations left `undefined` when no sample ever updates the extremum). -/
structure GradState where
  del : ℤ
  d : Option (ℚ × ℚ)
deriving DecidableEq, Repr

/-- Result shape `{ dx:…, dy:… }` of `minGrad`/`maxGrad`; `none` models an
`undefined` field. -/
structure GradResult where
  dx : Option ℚ
  dy : Option ℚ
deriving DecidableEq, Repr

/-- Body of one `minGrad` loop iteration: skip when out of bounds, else
compute the divergence (at the center pixel, as the source does) and replace
the running minimum only on strictly smaller divergence. -/
def minStep (b : ImageWrap) (radius : ℚ) (x y : ℕ) (dir : ℕ → ℚ × ℚ) (r g c : ℕ)
    (s : GradState) (k : ℕ) : GradState :=
  if inB b radius x y dir k then
    let del := chanDel b x y r g c
    if del < s.del then ⟨del, some (dir k)⟩ else s
  else s

/-- Body of one `maxGrad` loop iteration: as `minStep` but replacing only on
strictly larger divergence. -/
def maxStep (b : ImageWrap) (radius : ℚ) (x y : ℕ) (dir : ℕ → ℚ × ℚ) (r g c : ℕ)
    (s : GradState) (k : ℕ) : GradState :=
  if inB b radius x y dir k then
    let del := chanDel b x y r g c
    if s.del < del then ⟨del, some (dir k)⟩ else s
  else s

/-- `minGrad` up to its final state: reference channels computed before the
loop, extremum initialised to `Number.MAX_SAFE_INTEGER = 2^53 - 1`,
direction fields left unset, then the fold over the loop iterations. -/
def minGradFull (b : ImageWrap) (x y : ℕ) (color : Option ℕ) (radius : ℚ) (tests : ℕ)
    (dir : ℕ → ℚ × ℚ) : GradState :=
  let rgb := refRGB b x y color
  (ringKs tests).foldl (minStep b radius x y dir rgb.1 rgb.2.1 rgb.2.2)
    ⟨9007199254740991, none⟩

/-- `maxGrad` up to its final state: extremum initialised to `-1`. -/
def maxGradFull (b : ImageWrap) (x y : ℕ) (color : Option ℕ) (radius : ℚ) (tests : ℕ)
    (dir : ℕ → ℚ × ℚ) : GradState :=
  let rgb := refRGB b x y color
  (ringKs tests).foldl (maxStep b radius x y dir rgb.1 rgb.2.1 rgb.2.2)
    ⟨-1, none⟩

/-- Method `minGrad(x, y, color, radius, tests)`: returns
`{ dx:minDx, dy:minDy }`. -/
def minGrad (b : ImageWrap) (x y : ℕ) (color : Option ℕ) (radius : ℚ) (tests : ℕ)
    (dir : ℕ → ℚ × ℚ) : GradResult :=
  let f := minGradFull b x y color radius tests dir
  ⟨f.d.map Prod.fst, f.d.map Prod.snd⟩

/-- Method `maxGrad(x, y, color, radius, tests)`: returns
`{ dx:maxDx, dy:maxDy }`. -/
def maxGrad (b : ImageWrap) (x y : ℕ) (color : Option ℕ) (radius : ℚ) (tests : ℕ)
    (dir : ℕ → ℚ × ℚ) : GradResult :=
  let f := maxGradFull b x y color radius tests dir
  ⟨f.d.map Prod.fst, f.d.map Prod.snd⟩

end ImageWrap

/-- Projection used to observe the height of a construction result (`0` for
a failed construction). -/
def heightOf : Except Err ImageWrap → ℕ
  | .ok w => w.height
  | .error _ => 0

/-- Concrete fixture: a constructed 1×1 buffer with one RGBA pixel. -/
def wrap1 : ImageWrap := ⟨[10, 20, 30, 40], 1, 1, none⟩

/-- Concrete fixture: a 3×1 buffer holding two black pixels followed by a
white pixel. -/
def buf3 : ImageWrap := ⟨[0, 0, 0, 255, 0, 0, 0, 255, 255, 255, 255, 255], 3, 1, none⟩

/-- Concrete direction samples for demonstrations with `tests = 4`: the
exact real values of `(cos θ_k, sin θ_k)` at `θ = 2π, 3π/2, π, π/2`. -/
def dirDemo : ℕ → ℚ × ℚ := fun k =>
  [((1 : ℚ), (0 : ℚ)), (0, -1), (-1, 0), (0, 1)].getD k (1, 0)

/-- Concrete fixture: a consistent 1×1 `ImageData`. -/
def imgData1 : ImageData := ⟨[1, 2, 3, 4], 1, 1⟩

/-! Helper lemmas about the byte-array primitives. -/

theorem length_wr (l : List ℕ) (i v : ℕ) : (wr l i v).length = l.length :=
  List.length_set l i _

theorem rd_wr_self (l : List ℕ) (i v : ℕ) (h : i < l.length) :
    rd (wr l i v) i = min v 255 := by
  induction l generalizing i with
  | nil => simp at h
  | cons a t ih =>
    cases i with
    | zero => simp [rd, wr]
    | succ n =>
      simp only [wr, List.set_cons_succ, rd, List.getD_cons_succ]
      exact ih n (by simpa using h)

theorem rd_wr_ne (l : List ℕ) (i j v : ℕ) (h : i ≠ j) : rd (wr l i v) j = rd l j := by
  induction l generalizing i j with
  | nil => simp [wr, rd]
  | cons a t ih =>
    cases i with
    | zero =>
      cases j with
      | zero => exact absurd rfl h
      | succ m => simp [wr, rd]
    | succ n =>
      cases j with
      | zero => simp [wr, rd]
      | succ m =>
        simp only [wr, List.set_cons_succ, rd, List.getD_cons_succ]
        exact ih n m (by omega)

theorem jsByte_lt (c s : ℕ) : jsByte c s < 256 := Nat.mod_lt _ (by norm_num)

theorem rd_le (l : List ℕ) (h : ∀ v ∈ l, v ≤ 255) (i : ℕ) : rd l i ≤ 255 := by
  induction l generalizing i with
  | nil => simp [rd]
  | cons a t ih =>
    cases i with
    | zero => exact h a (List.mem_cons_self a t)
    | succ n =>
      simp only [rd, List.getD_cons_succ]
      exact ih (fun v hv => h v (List.mem_cons_of_mem a hv)) n

/-! Helper lemmas about the sampling loop. -/

theorem thetaGuard_iff (tests k : ℕ) (ht : 1 ≤ tests) : thetaGuard tests k ↔ k < tests := by
  have htq : (0 : ℚ) < (tests : ℚ) := by exact_mod_cast ht
  unfold thetaGuard
  rw [sub_pos, div_lt_one htq]
  exact_mod_cast Iff.rfl

theorem ringGo_eq (tests : ℕ) (ht : 1 ≤ tests) :
    ∀ fuel k, tests ≤ k + fuel → ringGo fuel tests k = List.range' k (tests - k) := by
  intro fuel
  induction fuel with
  | zero =>
    intro k hk
    have h0 : tests - k = 0 := by omega
    simp [ringGo, h0]
  | succ f ih =>
    intro k hk
    rw [ringGo]
    by_cases hkt : k < tests
    · rw [if_pos ((thetaGuard_iff tests k ht).mpr hkt)]
      rw [ih (k + 1) (by omega)]
      have hs : tests - k = (tests - (k + 1)) + 1 := by omega
      rw [hs, List.range'_succ]
    · rw [if_neg (fun hg => hkt ((thetaGuard_iff tests k ht).mp hg))]
      have h0 : tests - k = 0 := by omega
      simp [h0]

theorem ringKs_eq_range (tests : ℕ) (ht : 1 ≤ tests) : ringKs tests = List.range tests := by
  rw [ringKs, ringGo_eq tests ht (tests + 1) 0 (by omega), Nat.sub_zero,
    List.range_eq_range']

/-! Helper lemmas about the gradient folds: with the divergence constant
across iterations (the source samples the center pixel every time), the
first in-bounds iteration sets the extremum and no later iteration can
replace it. -/

namespace ImageWrap

theorem foldl_stay (step : GradState → ℕ → GradState) (D : ℤ)
    (h3 : ∀ v k, step ⟨D, v⟩ k = ⟨D, v⟩) :
    ∀ (ks : List ℕ) (v : Option (ℚ × ℚ)), ks.foldl step ⟨D, v⟩ = ⟨D, v⟩ := by
  intro ks
  induction ks with
  | nil => intro v; rfl
  | cons k t ih => intro v; rw [List.foldl_cons, h3 v k]; exact ih v

theorem foldl_first_wins (step : GradState → ℕ → GradState) (p : ℕ → Bool) (M D : ℤ)
    (dir : ℕ → ℚ × ℚ)
    (h1 : ∀ k, p k = true → step ⟨M, none⟩ k = ⟨D, some (dir k)⟩)
    (h2 : ∀ s k, p k = false → step s k = s)
    (h3 : ∀ v k, step ⟨D, v⟩ k = ⟨D, v⟩) :
    ∀ ks : List ℕ, ks.foldl step ⟨M, none⟩ =
      (match ks.find? p with
       | none => (⟨M, none⟩ : GradState)
       | some k => ⟨D, some (dir k)⟩) := by
  intro ks
  induction ks with
  | nil => rfl
  | cons k t ih =>
    by_cases hp : p k = true
    · rw [List.foldl_cons, h1 k hp, foldl_stay step D h3, List.find?_cons_of_pos _ hp]
    · have hpf : p k = false := by simpa using hp
      rw [List.foldl_cons, h2 _ k hpf, List.find?_cons_of_neg _ (by simp [hpf]), ih]

theorem delVal_nonneg (b : ImageWrap) (x y : ℕ) (color : Option ℕ) :
    0 ≤ delVal b x y color := by
  unfold delVal chanDel
  positivity

theorem refRGB_le (b : ImageWrap) (x y : ℕ) (color : Option ℕ)
    (hb : ∀ v ∈ b.data, v ≤ 255) :
    (refRGB b x y color).1 ≤ 255 ∧ (refRGB b x y color).2.1 ≤ 255 ∧
      (refRGB b x y color).2.2 ≤ 255 := by
  cases color with
  | none => exact ⟨rd_le _ hb _, rd_le _ hb _, rd_le _ hb _⟩
  | some c =>
    exact ⟨Nat.le_of_lt_succ (jsByte_lt c 16), Nat.le_of_lt_succ (jsByte_lt c 8),
      Nat.le_of_lt_succ (jsByte_lt c 0)⟩

theorem chanDel_le (b : ImageWrap) (x y r g c : ℕ) (hb : ∀ v ∈ b.data, v ≤ 255)
    (hr : r ≤ 255) (hg : g ≤ 255) (hc : c ≤ 255) : chanDel b x y r g c ≤ 765 := by
  have p0 := rd_le b.data hb (idx b x y)
  have p1 := rd_le b.data hb (idx b x y + 1)
  have p2 := rd_le b.data hb (idx b x y + 2)
  unfold chanDel
  have a0 : |(r : ℤ) - rd b.data (idx b x y)| ≤ 255 := abs_le.mpr ⟨by omega, by omega⟩
  have a1 : |(g : ℤ) - rd b.data (idx b x y + 1)| ≤ 255 := abs_le.mpr ⟨by omega, by omega⟩
  have a2 : |(c : ℤ) - rd b.data (idx b x y + 2)| ≤ 255 := abs_le.mpr ⟨by omega, by omega⟩
  omega

theorem delVal_le (b : ImageWrap) (x y : ℕ) (color : Option ℕ)
    (hb : ∀ v ∈ b.data, v ≤ 255) : delVal b x y color ≤ 765 := by
  obtain ⟨hr, hg, hc⟩ := refRGB_le b x y color hb
  exact chanDel_le b x y _ _ _ hb hr hg hc

theorem minGradFull_eq (b : ImageWrap) (x y : ℕ) (color : Option ℕ) (radius : ℚ)
    (tests : ℕ) (dir : ℕ → ℚ × ℚ) (hD : delVal b x y color < 9007199254740991) :
    minGradFull b x y color radius tests dir =
      (match (ringKs tests).find? (inB b radius x y dir) with
       | none => (⟨9007199254740991, none⟩ : GradState)
       | some k => ⟨delVal b x y color, some (dir k)⟩) := by
  unfold minGradFull
  refine foldl_first_wins _ _ _ _ dir ?_ ?_ ?_ (ringKs tests)
  · intro k hk
    unfold minStep
    rw [if_pos hk]
    simp only [delVal] at hD
    simp [hD]
    rfl
  · intro s k hk
    unfold minStep
    rw [hk]
    simp
  · intro v k
    unfold minStep
    split
    · simp only [delVal]
      split
      · omega
      · rfl
    · rfl

theorem maxGradFull_eq (b : ImageWrap) (x y : ℕ) (color : Option ℕ) (radius : ℚ)
    (tests : ℕ) (dir : ℕ → ℚ × ℚ) (hD : -1 < delVal b x y color) :
    maxGradFull b x y color radius tests dir =
      (match (ringKs tests).find? (inB b radius x y dir) with
       | none => (⟨-1, none⟩ : GradState)
       | some k => ⟨delVal b x y color, some (dir k)⟩) := by
  unfold maxGradFull
  refine foldl_first_wins _ _ _ _ dir ?_ ?_ ?_ (ringKs tests)
  · intro k hk
    unfold maxStep
    rw [if_pos hk]
    simp only [delVal] at hD
    simp [hD]
    rfl
  · intro s k hk
    unfold maxStep
    rw [hk]
    simp
  · intro v k
    unfold maxStep
    split
    · simp only [delVal]
      split
      · omega
      · rfl
    · rfl

theorem minStep_skip (b : ImageWrap) (radius : ℚ) (x y : ℕ) (dir : ℕ → ℚ × ℚ)
    (r g c : ℕ) (s : GradState) (k : ℕ) (hk : inB b radius x y dir k = false) :
    minStep b radius x y dir r g c s k = s := by
  unfold minStep
  rw [hk]
  simp

theorem maxStep_skip (b : ImageWrap) (radius : ℚ) (x y : ℕ) (dir : ℕ → ℚ × ℚ)
    (r g c : ℕ) (s : GradState) (k : ℕ) (hk : inB b radius x y dir k = false) :
    maxStep b radius x y dir r g c s k = s := by
  unfold maxStep
  rw [hk]
  simp

theorem foldl_skip_all (step : GradState → ℕ → GradState) (p : ℕ → Bool)
    (h2 : ∀ s k, p k = false → step s k = s) :
    ∀ (ks : List ℕ) (s : GradState), (∀ k ∈ ks, p k = false) → ks.foldl step s = s := by
  intro ks
  induction ks with
  | nil => intro s _; rfl
  | cons k t ih =>
    intro s h
    rw [List.foldl_cons, h2 s k (h k (List.mem_cons_self k t))]
    exact ih s (fun j hj => h j (List.mem_cons_of_mem k hj))

end ImageWrap

open ImageWrap

/-- Concrete evaluation of `ringKs 4`, used by several demonstrations. -/
theorem ringKs_four : ringKs 4 = [0, 1, 2, 3] := by
  rw [ringKs_eq_range 4 (by norm_num)]
  rfl

/-! Claim theorems. -/

/-- C10: for every `tests ≥ 1` the angular sampling loops of `minGrad` and
`maxGrad` terminate: the iteration-index list `ringKs tests` that both
folds traverse is exactly `List.range tests` (finitely many iterations,
exactly `tests` of them), and the loop guard `θ_k > 0` (equivalently
`thetaGuard tests k`, after dividing by `2π > 0`) holds precisely for
`k < tests`, so the decreasing θ reaches `0` after `tests` steps and the
loop exits. -/
theorem c10_loop_terminates (tests : ℕ) (ht : 1 ≤ tests) :
    ringKs tests = List.range tests ∧ (ringKs tests).length = tests ∧
      ∀ k, thetaGuard tests k ↔ k < tests := by
  refine ⟨ringKs_eq_range tests ht, ?_, fun k => thetaGuard_iff tests k ht⟩
  rw [ringKs_eq_range tests ht]
  exact List.length_range tests

/-- Witness for C10 at `tests = 5`. -/
theorem c10_loop_terminates_witness :
    1 ≤ 5 ∧ (ringKs 5 = List.range 5 ∧ (ringKs 5).length = 5 ∧
      ∀ k, thetaGuard 5 k ↔ k < 5) :=
  ⟨by norm_num, c10_loop_terminates 5 (by norm_num)⟩

/-- C3: for byte-valued data, the divergence tracked by a call (`delVal`,
the same value at every iteration since the source samples the center
pixel) satisfies `0 ≤ delVal ≤ 765`; `minGrad`'s initial extremum
`Number.MAX_SAFE_INTEGER = 9007199254740991` strictly exceeds it and
`maxGrad`'s initial `-1` is strictly below it, and since both loops replace
the extremum only on a strict inequality, the direction returned is that of
the FIRST angular sample (in the loop's decreasing-θ order) that survives
the bounds test — later samples attaining the same extremal divergence never
overwrite it. -/
theorem c3_first_sample_wins (b : ImageWrap) (x y : ℕ) (color : Option ℕ)
    (radius : ℚ) (tests : ℕ) (dir : ℕ → ℚ × ℚ) (hb : ∀ v ∈ b.data, v ≤ 255) :
    0 ≤ delVal b x y color ∧ delVal b x y color ≤ 765 ∧
      delVal b x y color < 9007199254740991 ∧ (-1 : ℤ) < delVal b x y color ∧
      (minGradFull b x y color radius tests dir).d =
        ((ringKs tests).find? (inB b radius x y dir)).map dir ∧
      (maxGradFull b x y color radius tests dir).d =
        ((ringKs tests).find? (inB b radius x y dir)).map dir := by
  have h0 := delVal_nonneg b x y color
  have h765 := delVal_le b x y color hb
  refine ⟨h0, h765, by omega, by omega, ?_, ?_⟩
  · rw [minGradFull_eq b x y color radius tests dir (by omega)]
    cases hf : (ringKs tests).find? (inB b radius x y dir) <;> simp
  · rw [maxGradFull_eq b x y color radius tests dir (by omega)]
    cases hf : (ringKs tests).find? (inB b radius x y dir) <;> simp

/-- Witness for C3 on the concrete 3×1 buffer. -/
theorem c3_first_sample_wins_witness :
    (∀ v ∈ buf3.data, v ≤ 255) ∧
      (0 ≤ delVal buf3 1 0 none ∧ delVal buf3 1 0 none ≤ 765 ∧
        delVal buf3 1 0 none < 9007199254740991 ∧ (-1 : ℤ) < delVal buf3 1 0 none ∧
        (minGradFull buf3 1 0 none 1 4 dirDemo).d =
          ((ringKs 4).find? (inB buf3 1 1 0 dirDemo)).map dirDemo ∧
        (maxGradFull buf3 1 0 none 1 4 dirDemo).d =
          ((ringKs 4).find? (inB buf3 1 1 0 dirDemo)).map dirDemo) :=
  ⟨by decide, c3_first_sample_wins buf3 1 0 none 1 4 dirDemo (by decide)⟩

/-- C4: when every candidate offset of a call falls out of bounds (every
iteration fails the bounds test), no extremum is ever set and both returned
fields are `undefined` (`none`) for `minGrad` as well as `maxGrad` — a
state distinguishable from any actual direction, in particular from a
spurious `(0, 0)`. -/
theorem c4_all_out_of_bounds (b : ImageWrap) (x y : ℕ) (color : Option ℕ)
    (radius : ℚ) (tests : ℕ) (dir : ℕ → ℚ × ℚ)
    (h : ∀ k ∈ ringKs tests, inB b radius x y dir k = false) :
    minGrad b x y color radius tests dir = ⟨none, none⟩ ∧
      maxGrad b x y color radius tests dir = ⟨none, none⟩ ∧
      (⟨none, none⟩ : GradResult) ≠ ⟨some 0, some 0⟩ := by
  refine ⟨?_, ?_, by simp⟩
  · unfold minGrad minGradFull
    rw [foldl_skip_all _ _ (fun s k hk => minStep_skip b radius x y dir _ _ _ s k hk)
      (ringKs tests) _ h]
    rfl
  · unfold maxGrad maxGradFull
    rw [foldl_skip_all _ _ (fun s k hk => maxStep_skip b radius x y dir _ _ _ s k hk)
      (ringKs tests) _ h]
    rfl

/-- Witness for C4: center `(0,0)` of the 1×1 buffer with radius `2` — all
four ring samples land out of bounds. -/
theorem c4_all_out_of_bounds_witness :
    (∀ k ∈ ringKs 4, inB wrap1 2 0 0 dirDemo k = false) ∧
      (minGrad wrap1 0 0 none 2 4 dirDemo = ⟨none, none⟩ ∧
        maxGrad wrap1 0 0 none 2 4 dirDemo = ⟨none, none⟩ ∧
        (⟨none, none⟩ : GradResult) ≠ ⟨some 0, some 0⟩) := by
  have h : ∀ k ∈ ringKs 4, inB wrap1 2 0 0 dirDemo k = false := by
    intro k hk
    rw [ringKs_four] at hk
    fin_cases hk <;> norm_num [inB, dirDemo, wrap1]
  exact ⟨h, c4_all_out_of_bounds wrap1 0 0 none 2 4 dirDemo h⟩

/-- C7: evaluation of the source's `absDiff` and `diff` at a concrete
in-range input.  Both methods begin with the malformed statement
`let ind = 4( y*this._width+x );`, which applies the number literal `4` as a
function, so every call throws a `TypeError` instead of returning the
claimed channel-difference sums. -/
theorem c7_absdiff_throws :
    absDiff wrap1 0 0 0 = .error .typeError ∧ diff wrap1 0 0 0 = .error .typeError :=
  ⟨rfl, rfl⟩

/-- C8: evaluation of the source's getter `red` at a concrete input after
`setRed(0,0,200)`.  The getter's body is `return this._data[ind] = r;` with
`r` undeclared, so every call throws a `ReferenceError` — it never returns
the stored byte `200` that the claim's round-trip requires (the thrown
error is distinguishable from the claimed `ok 200` result). -/
theorem c8_red_getter_throws :
    red (setRed wrap1 0 0 200) 0 0 = .error .referenceError ∧
      (Except.error Err.referenceError : Except Err ℕ) ≠ .ok 200 :=
  ⟨rfl, by simp⟩

/-- C1: evaluation of `maxGrad` on the 3×1 buffer `buf3` (black, black,
white), centered at the black pixel `(1,0)` with radius 1 and 4 samples.
The loops compute the sampled pixel's index as `4*(y*width + x)` — the
CENTER — and offset candidates by `Math.abs(radius*cosθ)`, so the tracked
divergence is the center-vs-reference value `0` at every surviving sample
and the call returns the first in-bounds direction `(1, 0)` with extremal
divergence `0`, even though the intended divergence at the ring candidate
`(2, 0)` (the white pixel) is `765`.  This contradicts the claim that each
surviving candidate contributes `absoluteChannelDiff` at the candidate
coordinate `center + (radius·cosθ, radius·sinθ)`. -/
theorem c1_center_sampling_bug :
    (maxGradFull buf3 1 0 none 1 4 dirDemo).del = 0 ∧
      (maxGradFull buf3 1 0 none 1 4 dirDemo).d = some (1, 0) ∧
      absDiffSpec buf3 2 0 0 = 765 := by
  have hD : delVal buf3 1 0 none = 0 := by decide
  have h0 : inB buf3 1 1 0 dirDemo 0 = true := by norm_num [inB, dirDemo, buf3]
  have hfind : (ringKs 4).find? (inB buf3 1 1 0 dirDemo) = some 0 := by
    rw [ringKs_four]
    exact List.find?_cons_of_pos _ h0
  rw [maxGradFull_eq buf3 1 0 none 1 4 dirDemo (by rw [hD]; norm_num), hfind]
  exact ⟨hD, rfl, by decide⟩

/-- C2 counterexample: on the 1×1 buffer, `set32` with the ARGB32 value
`0xFF000000 = 4278190080` (alpha byte `0xFF ≥ 0x80`) followed by `get32`
returns `-16777216` (the signed 32-bit reinterpretation produced by the
JavaScript shift `alpha << 24`), not the value `4278190080` itself, so the
round-trip is not exact for alpha bytes `≥ 0x80`. -/
theorem c2_cex_set32_roundtrip :
    get32 (set32 wrap1 0 0 4278190080) 0 0 = -16777216 ∧
      get32 (set32 wrap1 0 0 4278190080) 0 0 ≠ (4278190080 : ℤ) := by decide

/-- C2 as amended: for in-range coordinates and a 32-bit color `c`,
`set` then `get` returns `c & 0xFFFFFF` with the pixel's alpha byte
untouched, and `set32` then `get32` returns the SIGNED 32-bit
interpretation of `c`: `c` itself when the alpha byte is `< 0x80`, and
`c - 2^32` otherwise (exact round-trip only up to the sign
reinterpretation). -/
theorem c2_roundtrip_amended (b : ImageWrap) (x y c : ℕ) (hx : x < b.width)
    (hy : y < b.height) (hlen : b.data.length = 4 * b.width * b.height)
    (hc : c < 4294967296) :
    get (set b x y c) x y = c % 16777216 ∧
      alpha (set b x y c) x y = alpha b x y ∧
      get32 (set32 b x y c) x y =
        (if c < 2147483648 then (c : ℤ) else (c : ℤ) - 4294967296) := by
  have hub : idx b x y + 3 < b.data.length := by
    have h1 : y * b.width + x + 1 ≤ b.width * b.height := by
      calc y * b.width + x + 1 ≤ y * b.width + b.width := by omega
        _ = (y + 1) * b.width := by ring
        _ ≤ b.height * b.width := Nat.mul_le_mul_right _ hy
        _ = b.width * b.height := Nat.mul_comm _ _
    calc idx b x y + 3 < 4 * (y * b.width + x + 1) := by unfold idx; omega
      _ ≤ 4 * (b.width * b.height) := Nat.mul_le_mul_left 4 h1
      _ = 4 * b.width * b.height := (Nat.mul_assoc 4 b.width b.height).symm
      _ = b.data.length := hlen.symm
  have hw255 : ∀ s, min (jsByte c s) 255 = jsByte c s := fun s =>
    Nat.min_eq_left (Nat.le_of_lt_succ (jsByte_lt c s))
  have hcm : c % 4294967296 = c := Nat.mod_eq_of_lt hc
  have e0 : rd (set b x y c).data (idx b x y) = jsByte c 16 := by
    show rd (wr (wr (wr b.data (idx b x y) (jsByte c 16)) (idx b x y + 1) (jsByte c 8))
      (idx b x y + 2) (jsByte c 0)) (idx b x y) = jsByte c 16
    rw [rd_wr_ne _ _ _ _ (by omega), rd_wr_ne _ _ _ _ (by omega),
      rd_wr_self _ _ _ (by omega)]
    exact hw255 16
  have e1 : rd (set b x y c).data (idx b x y + 1) = jsByte c 8 := by
    show rd (wr (wr (wr b.data (idx b x y) (jsByte c 16)) (idx b x y + 1) (jsByte c 8))
      (idx b x y + 2) (jsByte c 0)) (idx b x y + 1) = jsByte c 8
    rw [rd_wr_ne _ _ _ _ (by omega), rd_wr_self _ _ _ (by rw [length_wr]; omega)]
    exact hw255 8
  have e2 : rd (set b x y c).data (idx b x y + 2) = jsByte c 0 := by
    show rd (wr (wr (wr b.data (idx b x y) (jsByte c 16)) (idx b x y + 1) (jsByte c 8))
      (idx b x y + 2) (jsByte c 0)) (idx b x y + 2) = jsByte c 0
    rw [rd_wr_self _ _ _ (by rw [length_wr, length_wr]; omega)]
    exact hw255 0
  have e3 : rd (set b x y c).data (idx b x y + 3) = rd b.data (idx b x y + 3) := by
    show rd (wr (wr (wr b.data (idx b x y) (jsByte c 16)) (idx b x y + 1) (jsByte c 8))
      (idx b x y + 2) (jsByte c 0)) (idx b x y + 3) = rd b.data (idx b x y + 3)
    rw [rd_wr_ne _ _ _ _ (by omega), rd_wr_ne _ _ _ _ (by omega),
      rd_wr_ne _ _ _ _ (by omega)]
  have f0 : rd (set32 b x y c).data (idx b x y) = jsByte c 16 := by
    show rd (wr (wr (wr (wr b.data (idx b x y) (jsByte c 16)) (idx b x y + 1) (jsByte c 8))
      (idx b x y + 2) (jsByte c 0)) (idx b x y + 3) (jsByte c 24)) (idx b x y) = jsByte c 16
    rw [rd_wr_ne _ _ _ _ (by omega), rd_wr_ne _ _ _ _ (by omega),
      rd_wr_ne _ _ _ _ (by omega), rd_wr_self _ _ _ (by omega)]
    exact hw255 16
  have f1 : rd (set32 b x y c).data (idx b x y + 1) = jsByte c 8 := by
    show rd (wr (wr (wr (wr b.data (idx b x y) (jsByte c 16)) (idx b x y + 1) (jsByte c 8))
      (idx b x y + 2) (jsByte c 0)) (idx b x y + 3) (jsByte c 24)) (idx b x y + 1) = jsByte c 8
    rw [rd_wr_ne _ _ _ _ (by omega), rd_wr_ne _ _ _ _ (by omega),
      rd_wr_self _ _ _ (by rw [length_wr]; omega)]
    exact hw255 8
  have f2 : rd (set32 b x y c).data (idx b x y + 2) = jsByte c 0 := by
    show rd (wr (wr (wr (wr b.data (idx b x y) (jsByte c 16)) (idx b x y + 1) (jsByte c 8))
      (idx b x y + 2) (jsByte c 0)) (idx b x y + 3) (jsByte c 24)) (idx b x y + 2) = jsByte c 0
    rw [rd_wr_ne _ _ _ _ (by omega),
      rd_wr_self _ _ _ (by rw [length_wr, length_wr]; omega)]
    exact hw255 0
  have f3 : rd (set32 b x y c).data (idx b x y + 3) = jsByte c 24 := by
    show rd (wr (wr (wr (wr b.data (idx b x y) (jsByte c 16)) (idx b x y + 1) (jsByte c 8))
      (idx b x y + 2) (jsByte c 0)) (idx b x y + 3) (jsByte c 24)) (idx b x y + 3) = jsByte c 24
    rw [rd_wr_self _ _ _ (by rw [length_wr, length_wr, length_wr]; omega)]
    exact hw255 24
  refine ⟨?_, ?_, ?_⟩
  · show rd (set b x y c).data (idx (set b x y c) x y) * 65536 +
      rd (set b x y c).data (idx (set b x y c) x y + 1) * 256 +
      rd (set b x y c).data (idx (set b x y c) x y + 2) = c % 16777216
    rw [show idx (set b x y c) x y = idx b x y from rfl, e0, e1, e2]
    simp only [jsByte, hcm]
    norm_num
    omega
  · show rd (set b x y c).data (idx (set b x y c) x y + 3) = rd b.data (idx b x y + 3)
    rw [show idx (set b x y c) x y = idx b x y from rfl, e3]
  · show toInt32 (rd (set32 b x y c).data (idx (set32 b x y c) x y + 3) * 16777216) +
      ((rd (set32 b x y c).data (idx (set32 b x y c) x y) * 65536 +
        rd (set32 b x y c).data (idx (set32 b x y c) x y + 1) * 256 +
        rd (set32 b x y c).data (idx (set32 b x y c) x y + 2) : ℕ) : ℤ) =
      (if c < 2147483648 then (c : ℤ) else (c : ℤ) - 4294967296)
    rw [show idx (set32 b x y c) x y = idx b x y from rfl, f0, f1, f2, f3]
    simp only [toInt32, jsByte, hcm]
    norm_num
    split_ifs <;> omega

/-- Witness for C2 (amended) on the concrete 1×1 buffer with
`c = 0xFF000000`. -/
theorem c2_roundtrip_amended_witness :
    (0 < wrap1.width ∧ 0 < wrap1.height ∧
      wrap1.data.length = 4 * wrap1.width * wrap1.height ∧
      (4278190080 : ℕ) < 4294967296) ∧
      (get (set wrap1 0 0 4278190080) 0 0 = 4278190080 % 16777216 ∧
        alpha (set wrap1 0 0 4278190080) 0 0 = alpha wrap1 0 0 ∧
        get32 (set32 wrap1 0 0 4278190080) 0 0 =
          (if (4278190080 : ℕ) < 2147483648 then ((4278190080 : ℕ) : ℤ)
           else ((4278190080 : ℕ) : ℤ) - 4294967296)) :=
  ⟨⟨by decide, by decide, by decide, by decide⟩,
    c2_roundtrip_amended wrap1 0 0 4278190080 (by decide) (by decide) (by decide) (by decide)⟩

/-- C5: the constructor fails with `'Size information required'`
(`ConfigurationError`) exactly when the source is a raw channel array and
neither dimension is derivable — no rect at all, or a rect in which neither
`width` nor `height` is a truthy (present, nonzero) field — and fails with
`'Unknown Image Source'` (`UnsupportedSourceError`) exactly when the source
matches none of the recognized kinds.  In every failure case the result is
an `Except.error`, which carries no buffer state: there is no
partial-construction state. -/
theorem c5_construction_errors (s : Source) (rect : Option RectWH) :
    (construct s rect = .error .sizeRequired ↔
      ((∃ d, s = .rawArray d) ∧ (rect = none ∨ ∃ r, rect = some r ∧
        jsTruthy r.width = false ∧ jsTruthy r.height = false))) ∧
    (construct s rect = .error .unknownSource ↔ s = .other) := by
  cases s with
  | image => cases rect <;> simp [construct]
  | canvas => cases rect <;> simp [construct]
  | other => cases rect <;> simp [construct]
  | pixelData d => cases rect <;> simp [construct]
  | rawArray d =>
    cases rect with
    | none => simp [construct, fromArray]
    | some r =>
      cases hw : jsTruthy r.width <;> cases hh : jsTruthy r.height <;>
        simp [construct, fromArray, hw, hh]

/-- C6 counterexample: constructing from a raw array of length 16 (4 pixels)
with `{width: 2}` yields `height = 16/4/2 = 2`, not `height = 1` as the
claim (quoting the spec's test) asserts. -/
theorem c6_cex_height_not_one :
    heightOf (construct (.rawArray (List.replicate 16 0)) (some ⟨some 2, none⟩)) = 2 ∧
      heightOf (construct (.rawArray (List.replicate 16 0)) (some ⟨some 2, none⟩)) ≠ 1 := by
  decide

/-- C6 as amended: with only one truthy dimension given, the missing one is
derived as `(length/4) / given_dimension` — so a raw array of length 16 with
`{width: 2}` yields `height = 2` (not 1), and a raw array of length 400 with
`{height: 10}` yields `width = 10`. -/
theorem c6_derived_dimension (d : List ℕ) (w h : ℕ) (hw : w ≠ 0) (hh : h ≠ 0) :
    construct (.rawArray d) (some ⟨some w, none⟩) =
      .ok ⟨d, w, d.length / 4 / w, none⟩ ∧
    construct (.rawArray d) (some ⟨none, some h⟩) =
      .ok ⟨d, d.length / 4 / h, h, none⟩ := by
  have hw' : jsTruthy (some w) = true := by simp [jsTruthy, hw]
  have hh' : jsTruthy (some h) = true := by simp [jsTruthy, hh]
  constructor
  · simp [construct, fromArray, hw', hw, jsTruthy, fromData, mkImageData1,
      Nat.div_div_eq_div_mul]
  · simp [construct, fromArray, hh', hh, jsTruthy, fromData, mkImageData2]

set_option maxRecDepth 10000 in
/-- Witness for C6 (amended): the spec's own concrete instances — length
400 with `{height: 10}` gives width 10, and length 16 with `{width: 2}`
gives height 2. -/
theorem c6_derived_dimension_witness :
    ((2 : ℕ) ≠ 0 ∧ (10 : ℕ) ≠ 0) ∧
      (construct (.rawArray (List.replicate 16 0)) (some ⟨some 2, none⟩) =
          .ok ⟨List.replicate 16 0, 2, 2, none⟩ ∧
        construct (.rawArray (List.replicate 16 0)) (some ⟨none, some 10⟩) =
          .ok ⟨List.replicate 16 0, 0, 10, none⟩) ∧
      (construct (.rawArray (List.replicate 400 0)) (some ⟨some 10, none⟩) =
          .ok ⟨List.replicate 400 0, 10, 10, none⟩ ∧
        construct (.rawArray (List.replicate 400 0)) (some ⟨none, some 10⟩) =
          .ok ⟨List.replicate 400 0, 10, 10, none⟩) :=
  ⟨⟨by decide, by decide⟩,
    c6_derived_dimension (List.replicate 16 0) 2 10 (by decide) (by decide),
    c6_derived_dimension (List.replicate 400 0) 10 10 (by decide) (by decide)⟩

/-- C9 counterexample: the exposed `width` property setter breaks the
invariant — `wrap1` satisfies `data.length = 4*width*height`, but after
`wrap1.width = 2` (which changes `width` without touching `data`) the
invariant no longer holds, so width is not fixed for the buffer's lifetime
and not every exposed operation preserves the invariant. -/
theorem c9_cex_width_setter :
    wrap1.data.length = 4 * wrap1.width * wrap1.height ∧
      widthSetter wrap1 2 ≠ wrap1 ∧
      ¬((widthSetter wrap1 2).data.length =
        4 * (widthSetter wrap1 2).width * (widthSetter wrap1 2).height) := by
  decide

/-- C9 as amended: the pixel-writing operations (`set`, `set32`,
`setRed/Green/Blue/Alpha`) preserve `width`, `height` and `data.length`
(reads are pure and the gradient search never writes), and `fromData` from
a consistent `ImageData` establishes `data.length = 4*width*height`; but
the exposed `width`/`height` property setters assign their argument
directly, changing the dimension while leaving `data` untouched, and can
therefore break the invariant. -/
theorem c9_invariant_amended (b : ImageWrap) (x y c v : ℕ) (d : ImageData)
    (rect : Option RectWH) (hd : d.data.length = 4 * d.width * d.height) :
    ((set b x y c).width = b.width ∧ (set b x y c).height = b.height ∧
      (set b x y c).data.length = b.data.length) ∧
    ((set32 b x y c).width = b.width ∧ (set32 b x y c).height = b.height ∧
      (set32 b x y c).data.length = b.data.length) ∧
    ((setRed b x y v).width = b.width ∧ (setRed b x y v).height = b.height ∧
      (setRed b x y v).data.length = b.data.length) ∧
    ((setGreen b x y v).width = b.width ∧ (setGreen b x y v).height = b.height ∧
      (setGreen b x y v).data.length = b.data.length) ∧
    ((setBlue b x y v).width = b.width ∧ (setBlue b x y v).height = b.height ∧
      (setBlue b x y v).data.length = b.data.length) ∧
    ((setAlpha b x y v).width = b.width ∧ (setAlpha b x y v).height = b.height ∧
      (setAlpha b x y v).data.length = b.data.length) ∧
    ((fromData d rect).data.length =
      4 * (fromData d rect).width * (fromData d rect).height) ∧
    ((widthSetter b v).width = v ∧ (widthSetter b v).data = b.data ∧
      (heightSetter b v).height = v ∧ (heightSetter b v).data = b.data) := by
  refine ⟨⟨rfl, rfl, ?_⟩, ⟨rfl, rfl, ?_⟩, ⟨rfl, rfl, ?_⟩, ⟨rfl, rfl, ?_⟩,
    ⟨rfl, rfl, ?_⟩, ⟨rfl, rfl, ?_⟩, hd, rfl, rfl, rfl, rfl⟩
  · show (wr (wr (wr b.data (idx b x y) (jsByte c 16)) (idx b x y + 1) (jsByte c 8))
      (idx b x y + 2) (jsByte c 0)).length = b.data.length
    rw [length_wr, length_wr, length_wr]
  · show (wr (wr (wr (wr b.data (idx b x y) (jsByte c 16)) (idx b x y + 1) (jsByte c 8))
      (idx b x y + 2) (jsByte c 0)) (idx b x y + 3) (jsByte c 24)).length = b.data.length
    rw [length_wr, length_wr, length_wr, length_wr]
  · exact length_wr _ _ _
  · exact length_wr _ _ _
  · exact length_wr _ _ _
  · exact length_wr _ _ _

/-- Witness for C9 (amended) on concrete inputs. -/
theorem c9_invariant_amended_witness :
    (imgData1.data.length = 4 * imgData1.width * imgData1.height) ∧
      (((set wrap1 0 0 99).width = wrap1.width ∧ (set wrap1 0 0 99).height = wrap1.height ∧
        (set wrap1 0 0 99).data.length = wrap1.data.length) ∧
      ((set32 wrap1 0 0 99).width = wrap1.width ∧ (set32 wrap1 0 0 99).height = wrap1.height ∧
        (set32 wrap1 0 0 99).data.length = wrap1.data.length) ∧
      ((setRed wrap1 0 0 7).width = wrap1.width ∧ (setRed wrap1 0 0 7).height = wrap1.height ∧
        (setRed wrap1 0 0 7).data.length = wrap1.data.length) ∧
      ((setGreen wrap1 0 0 7).width = wrap1.width ∧ (setGreen wrap1 0 0 7).height = wrap1.height ∧
        (setGreen wrap1 0 0 7).data.length = wrap1.data.length) ∧
      ((setBlue wrap1 0 0 7).width = wrap1.width ∧ (setBlue wrap1 0 0 7).height = wrap1.height ∧
        (setBlue wrap1 0 0 7).data.length = wrap1.data.length) ∧
      ((setAlpha wrap1 0 0 7).width = wrap1.width ∧ (setAlpha wrap1 0 0 7).height = wrap1.height ∧
        (setAlpha wrap1 0 0 7).data.length = wrap1.data.length) ∧
      ((fromData imgData1 none).data.length =
        4 * (fromData imgData1 none).width * (fromData imgData1 none).height) ∧
      ((widthSetter wrap1 7).width = 7 ∧ (widthSetter wrap1 7).data = wrap1.data ∧
        (heightSetter wrap1 7).height = 7 ∧ (heightSetter wrap1 7).data = wrap1.data)) :=
  ⟨by decide, c9_invariant_amended wrap1 0 0 99 7 imgData1 none (by decide)⟩

end ImageWrapModel
